import Mathlib

/-!
Verification of the visitorTrackerApp data-retention core.

This file embeds, as executable Lean definitions, the parts of the
repository that the specification's claims are about:

* `runDataComplianceCleanup` (server/routes/clean_data.js): the three-step
  retention delete pipeline plus its audit-log insert;
* `checkDatabaseIntegrity`, `restoreFromBackup`, `createBackup` and the
  internal `cleanOldBackups` (server/db_management.js);
* the startup integrity-check / restore loop of `initializeServer`
  (server/server.js).

JavaScript strings and SQLite TEXT values are modelled as Lean `String`s,
with comparison, slicing and matching defined over `String.data` (the
character list) so that every operation is kernel-executable.  Database
tables are lists of row structures; the filesystem is a record of the
facts the code inspects (existence flags, directory listings with
names/contents/mtimes).  Fallible external calls (a `db.run` that rejects,
a `copyFileSync` that throws, an integrity pragma that errors) are
modelled by explicit Boolean fault inputs, one per call site, exactly at
the points where the source can receive an error.
-/

/-! ### Character-list string primitives

`listCmp` is byte/code-unit lexicographic comparison, the order used both
by SQLite TEXT comparison (memcmp on UTF-8) and by JavaScript's default
`Array.prototype.sort` and `<` on the ASCII strings involved here. -/

def listCmp : List Char → List Char → Ordering
  | [], [] => .eq
  | [], _ :: _ => .lt
  | _ :: _, [] => .gt
  | a :: as, b :: bs =>
    if a.toNat < b.toNat then .lt
    else if b.toNat < a.toNat then .gt
    else listCmp as bs

def strCmp (a b : String) : Ordering := listCmp a.data b.data

/-- `a < b` in code-unit lexicographic order (SQLite's `<` on TEXT). -/
def strLt (a b : String) : Bool := strCmp a b == .lt

/-- `a ≤ b` in code-unit lexicographic order. -/
def strLe (a b : String) : Bool := !(strCmp a b == .gt)

/-- JavaScript `s.startsWith(p)`. -/
def strStartsWith (s p : String) : Bool := p.data.isPrefixOf s.data

/-- JavaScript `s.endsWith(p)`. -/
def strEndsWith (s p : String) : Bool := p.data.isSuffixOf s.data

/-- JavaScript `name.split(".")[0]`: the part of a file name before the
first dot. -/
def fileStem (name : String) : String :=
  String.mk (name.data.takeWhile (fun c => c ≠ '.'))

/-- JavaScript `s.slice(0, n)`. -/
def jsSlice (s : String) (n : Nat) : String := String.mk (s.data.take n)

/-! ### ISO-8601 rendering of epoch milliseconds

`toISOString` reimplements JavaScript `new Date(ms).toISOString()` for
non-negative epoch times (proleptic Gregorian, UTC), using the standard
civil-from-days conversion. -/

def digitChar : Nat → Char
  | 0 => '0' | 1 => '1' | 2 => '2' | 3 => '3' | 4 => '4'
  | 5 => '5' | 6 => '6' | 7 => '7' | 8 => '8' | _ => '9'

def pad2 (n : Nat) : List Char := [digitChar (n / 10 % 10), digitChar (n % 10)]

def pad3 (n : Nat) : List Char :=
  [digitChar (n / 100 % 10), digitChar (n / 10 % 10), digitChar (n % 10)]

def pad4 (n : Nat) : List Char :=
  [digitChar (n / 1000 % 10), digitChar (n / 100 % 10),
   digitChar (n / 10 % 10), digitChar (n % 10)]

/-- Gregorian (year, month, day) of day number `z` counted from
1970-01-01 (valid for `z ≥ 0`). -/
def civilFromDays (z : Nat) : Nat × Nat × Nat :=
  let z' := z + 719468
  let era := z' / 146097
  let doe := z' % 146097
  let yoe := (doe - doe / 1460 + doe / 36524 - doe / 146096) / 365
  let y := yoe + era * 400
  let doy := doe - (365 * yoe + yoe / 4 - yoe / 100)
  let mp := (5 * doy + 2) / 153
  let d := doy - (153 * mp + 2) / 5 + 1
  let m := if mp < 10 then mp + 3 else mp - 9
  (if m ≤ 2 then y + 1 else y, m, d)

/-- JavaScript `new Date(ms).toISOString()` for `ms ≥ 0`:
`YYYY-MM-DDTHH:MM:SS.mmmZ`. -/
def toISOString (ms : Nat) : String :=
  let days := ms / 86400000
  let rem := ms % 86400000
  let ymd := civilFromDays days
  String.mk (pad4 ymd.1 ++ '-' :: pad2 ymd.2.1 ++ '-' :: pad2 ymd.2.2 ++
    'T' :: pad2 (rem / 3600000) ++ ':' :: pad2 (rem % 3600000 / 60000) ++
    ':' :: pad2 (rem % 60000 / 1000) ++ '.' :: pad3 (rem % 1000) ++ ['Z'])

/-- The retention cutoff as the claim words it: the same ISO-8601 instant
with the calendar year decreased by exactly 2.  This definition follows
the specification's words ("cutoff = now − 2 years"), for comparison with
the code's `cleanupCutoff`. -/
def calendarTwoYearsEarlierISO (ms : Nat) : String :=
  let days := ms / 86400000
  let rem := ms % 86400000
  let ymd := civilFromDays days
  String.mk (pad4 (ymd.1 - 2) ++ '-' :: pad2 ymd.2.1 ++ '-' :: pad2 ymd.2.2 ++
    'T' :: pad2 (rem / 3600000) ++ ':' :: pad2 (rem % 3600000 / 60000) ++
    ':' :: pad2 (rem % 60000 / 1000) ++ '.' :: pad3 (rem % 1000) ++ ['Z'])

/-! ### The retention cleanup job (server/routes/clean_data.js) -/

structure Visitor where
  id : Nat
  first_name : String
  is_banned : Nat        -- INTEGER column, 0 = not banned
deriving DecidableEq, Repr

structure Visit where
  id : Nat
  visitor_id : Nat
  entry_time : String    -- TEXT, ISO-8601
deriving DecidableEq, Repr

structure Dependent where
  id : Nat
  visit_id : Nat
deriving DecidableEq, Repr

structure AuditRecord where
  event_name : String
  timestamp : String
  status : String
  profiles_deleted : Nat
  visits_deleted : Nat
  dependents_deleted : Nat
deriving DecidableEq, Repr

structure DB where
  visitors : List Visitor
  visits : List Visit
  dependents : List Dependent
  audit_logs : List AuditRecord
deriving DecidableEq, Repr

/-- `DELETE FROM dependents WHERE visit_id IN
(SELECT id FROM visits WHERE entry_time < ?)`.
Returns the remaining rows and the `changes` count. -/
def deleteDependentsStep (deps : List Dependent) (visits : List Visit)
    (cutoff : String) : List Dependent × Nat :=
  let oldVisitIds := (visits.filter (fun v => strLt v.entry_time cutoff)).map (fun v => v.id)
  let kept := deps.filter (fun d => !(oldVisitIds.contains d.visit_id))
  (kept, deps.length - kept.length)

/-- `DELETE FROM visits WHERE entry_time < ?`. -/
def deleteVisitsStep (visits : List Visit) (cutoff : String) : List Visit × Nat :=
  let kept := visits.filter (fun v => !(strLt v.entry_time cutoff))
  (kept, visits.length - kept.length)

/-- `DELETE FROM visitors WHERE id NOT IN (SELECT visitor_id FROM visits)
AND is_banned = 0`. -/
def deleteVisitorsStep (visitors : List Visitor) (visits : List Visit) :
    List Visitor × Nat :=
  let activeIds := visits.map (fun v => v.visitor_id)
  let kept := visitors.filter (fun p => !(!(activeIds.contains p.id) && p.is_banned == 0))
  (kept, visitors.length - kept.length)

/-- `new Date(Date.now() - 2 * 365 * 24 * 60 * 60 * 1000).toISOString()`:
the retention cutoff computed by the cleanup job. -/
def cleanupCutoff (nowMs : Nat) : String :=
  toISOString (nowMs - 2 * 365 * 24 * 60 * 60 * 1000)

structure CleanupResult where
  db : DB
  threw : Bool           -- whether the job threw to its caller
deriving DecidableEq, Repr

/-- `runDataComplianceCleanup(db)` from server/routes/clean_data.js.

`fail1 fail2 fail3` say whether each of the three awaited deletes rejects
(a rejecting statement applies no change); `auditFail` says whether the
final audit-log INSERT rejects.  The `try` block runs the deletes in
order and stops at the first rejection; the `catch` switches the audit
status/event to the failure variant; the `finally` always attempts
exactly one INSERT into `audit_logs`, and a failure of that INSERT is
itself caught (and only logged), so the function never throws. -/
def runDataComplianceCleanup (db : DB) (nowMs auditMs : Nat)
    (fail1 fail2 fail3 auditFail : Bool) : CleanupResult :=
  let twoYearsAgo := cleanupCutoff nowMs
  let tr : DB × Nat × Nat × Nat × Bool :=
    if fail1 then (db, 0, 0, 0, true)
    else
      let r1 := deleteDependentsStep db.dependents db.visits twoYearsAgo
      let db1 := { db with dependents := r1.1 }
      if fail2 then (db1, r1.2, 0, 0, true)
      else
        let r2 := deleteVisitsStep db1.visits twoYearsAgo
        let db2 := { db1 with visits := r2.1 }
        if fail3 then (db2, r1.2, r2.2, 0, true)
        else
          let r3 := deleteVisitorsStep db2.visitors db2.visits
          let db3 := { db2 with visitors := r3.1 }
          (db3, r1.2, r2.2, r3.2, false)
  let dbT := tr.1
  let dcount := tr.2.1
  let vcount := tr.2.2.1
  let pcount := tr.2.2.2.1
  let errored := tr.2.2.2.2
  let auditStatus := if errored then "ERROR" else "OK"
  let auditEvent := if errored then "Compliance Cleanup Failed"
                    else "Compliance Cleanup Succeeded"
  let dbF :=
    if auditFail then dbT
    else { dbT with audit_logs := dbT.audit_logs ++
      [{ event_name := auditEvent, timestamp := toISOString auditMs,
         status := auditStatus, profiles_deleted := pcount,
         visits_deleted := vcount, dependents_deleted := dcount }] }
  { db := dbF, threw := false }

/-! ### Integrity check (server/db_management.js, checkDatabaseIntegrity) -/

structure IntegrityCheckEnv where
  fileExists : Bool         -- fs.existsSync(dbFilePath)
  openError : Bool          -- the read-only open reports an error
  pragmaError : Bool        -- db.all("PRAGMA integrity_check") errors
  pragmaRows : List String  -- integrity_check column of the result rows
deriving DecidableEq, Repr

/-- `checkDatabaseIntegrity(dbFilePath, logger)`: resolves (never rejects)
with `false` on a missing file, open error or pragma error, and otherwise
with `!(rows.length > 0 && rows[0].integrity_check !== "ok")`. -/
def checkDatabaseIntegrity (env : IntegrityCheckEnv) : Bool :=
  if !env.fileExists then false
  else if env.openError then false
  else if env.pragmaError then false
  else
    let isCorrupt := decide (0 < env.pragmaRows.length) &&
      !(env.pragmaRows.getD 0 "" == "ok")
    !isCorrupt

/-! ### Restore (server/db_management.js, restoreFromBackup) -/

structure RestoreFS where
  backupDirExists : Bool
  backupFiles : List (String × String)  -- (name, content) in the backups dir
  primaryContent : Option String        -- the primary db file, none if absent
deriving DecidableEq, Repr

/-- The filter applied to directory entries:
`file.startsWith(stem) && file.endsWith(".db")`. -/
def backupMatches (stem name : String) : Bool :=
  strStartsWith name stem && strEndsWith name ".db"

/-- The ordering used by JavaScript's default `Array.prototype.sort` on
the ASCII backup file names: code-unit lexicographic `≤`. -/
def nameLe (a b : String) : Prop := strLe a b = true

instance : DecidableRel nameLe := fun a b => by unfold nameLe; infer_instance

/-- `restoreFromBackup(dataPath, logger, dbFileName)`: list the backup
directory, keep names matching the primary file's stem and `.db`, sort
ascending (`.sort()`) and reverse (descending), copy the first over the
primary file.  `copyFails` models `fs.copyFileSync` throwing. -/
def restoreFromBackup (fs : RestoreFS) (copyFails : Bool) (dbFileName : String) :
    RestoreFS × Bool :=
  if !fs.backupDirExists then (fs, false)
  else
    let stem := fileStem dbFileName
    let backupNames := (fs.backupFiles.map Prod.fst).filter (backupMatches stem)
    let sorted := (backupNames.insertionSort nameLe).reverse
    match sorted with
    | [] => (fs, false)
    | latest :: _ =>
      if copyFails then (fs, false)
      else
        match fs.backupFiles.lookup latest with
        | some content => ({ fs with primaryContent := some content }, true)
        | none => (fs, false)

/-! ### Backup creation and pruning (server/db_management.js) -/

structure BackupFS where
  backupDirExists : Bool
  backupFiles : List (String × Nat)   -- (name, mtime in epoch ms)
deriving DecidableEq, Repr

/-- `cleanOldBackups(backupDir, filePrefix, daysToRetain, logger)`:
delete every matching backup file whose mtime is older than
`now − daysToRetain` days.  All errors are caught inside the function
(`sweepFails` models a sweep that threw before deleting anything). -/
def cleanOldBackups (dirExists : Bool) (files : List (String × Nat))
    (stem : String) (daysToRetain nowMs : Nat) (sweepFails : Bool) :
    List (String × Nat) :=
  if sweepFails then files
  else if !dirExists then files
  else
    let cutoffTime := nowMs - daysToRetain * 24 * 60 * 60 * 1000
    files.filter (fun p => !(backupMatches stem p.1 && decide (p.2 < cutoffTime)))

structure BackupCallResult where
  fs : BackupFS
  returned : Bool     -- the Boolean the function returns
  didCopy : Bool      -- whether fs.copyFileSync succeeded this call
  ranSweep : Bool     -- whether cleanOldBackups was invoked this call
deriving DecidableEq, Repr

/-- The dated daily backup name
`` `${backupFileNamePrefix}-${dateStamp}.db` `` with
`dateStamp = new Date().toISOString().slice(0, 10)`. -/
def dailyBackupName (nowMs : Nat) (dbFileName : String) : String :=
  fileStem dbFileName ++ "-" ++ jsSlice (toISOString nowMs) 10 ++ ".db"

/-- `createBackup(dbFilePath, dataPath, logger)`: ensure the backups dir,
compute today's dated name `<stem>-<YYYY-MM-DD>.db` from
`new Date().toISOString().slice(0, 10)`; if that file already exists,
skip the copy, prune, return true; otherwise copy (a throwing copy
returns false without pruning), then prune and return true. -/
def createBackup (fs : BackupFS) (nowMs : Nat) (copyFails sweepFails : Bool)
    (dbFileName : String) : BackupCallResult :=
  let daysToRetain := 7
  let fs1 : BackupFS := { fs with backupDirExists := true }
  let stem := fileStem dbFileName
  let backupFileName := dailyBackupName nowMs dbFileName
  if fs1.backupFiles.any (fun p => p.1 == backupFileName) then
    { fs := { fs1 with backupFiles :=
        cleanOldBackups true fs1.backupFiles stem daysToRetain nowMs sweepFails },
      returned := true, didCopy := false, ranSweep := true }
  else if copyFails then
    { fs := fs1, returned := false, didCopy := false, ranSweep := false }
  else
    let fs2 := { fs1 with backupFiles := fs1.backupFiles ++ [(backupFileName, nowMs)] }
    { fs := { fs2 with backupFiles :=
        cleanOldBackups true fs2.backupFiles stem daysToRetain nowMs sweepFails },
      returned := true, didCopy := true, ranSweep := true }

/-! ### Startup recovery loop (server/server.js, initializeServer) -/

structure InitOutcome where
  finalAttempt : Nat
  clean : Bool
  restoreCalls : Nat
  fatalHalt : Bool
deriving DecidableEq, Repr

/-- The `while (!isDatabaseClean && attempt <= maxRestoreAttempts)` loop of
`initializeServer`, with `maxRestoreAttempts = 2`.  `integ n` is the
result of the (n+1)-th integrity check (`integ 0` is the initial one);
`restoreRes attempt` is what `restoreFromBackup` returns on that
iteration.  Returns (final attempt counter, isDatabaseClean, number of
restore calls made).  The fuel argument only bounds the recursion; with
fuel 3 it is never exhausted. -/
def recoveryLoop (integ restoreRes : Nat → Bool) :
    Nat → Nat → Bool → Nat → Nat → Nat × Bool × Nat
  | 0, attempt, isClean, _, calls => (attempt, isClean, calls)
  | fuel + 1, attempt, isClean, checkIdx, calls =>
    if isClean then (attempt, isClean, calls)
    else if attempt ≤ 2 then
      if restoreRes attempt then
        if integ checkIdx then (attempt, true, calls + 1)
        else recoveryLoop integ restoreRes fuel (attempt + 1) false (checkIdx + 1) (calls + 1)
      else if attempt == 1 then (attempt, isClean, calls + 1)
      else recoveryLoop integ restoreRes fuel (attempt + 1) isClean checkIdx (calls + 1)
    else (attempt, isClean, calls)

/-- The integrity-check/restore orchestration at the top of
`initializeServer`.  `backupsAvailable` says whether the backups
directory exists and contains a matching file (a property of the disk,
unchanged by restore, which only overwrites the primary file);
`copyOk n` says whether the copy inside the n-th restore succeeds, so
`restoreFromBackup` returns `backupsAvailable && copyOk n`.  `fatalHalt`
is the `!isDatabaseClean && attempt > maxRestoreAttempts` halt branch. -/
def initializeServer (integ : Nat → Bool) (backupsAvailable : Bool)
    (copyOk : Nat → Bool) : InitOutcome :=
  let restoreRes := fun attempt => backupsAvailable && copyOk attempt
  let initClean := integ 0
  let r := recoveryLoop integ restoreRes 3 1 initClean 1 0
  { finalAttempt := r.1, clean := r.2.1, restoreCalls := r.2.2,
    fatalHalt := !r.2.1 && decide (r.1 > 2) }

/-! ### Helper lemmas on the lexicographic order -/

theorem listCmp_self (l : List Char) : listCmp l l = .eq := by
  induction l with
  | nil => rfl
  | cons x xs ih => simp [listCmp, ih]

theorem strLe_refl (a : String) : strLe a a = true := by
  simp only [strLe, strCmp, listCmp_self]
  rfl

theorem listCmp_swap (a b : List Char) : listCmp b a = (listCmp a b).swap := by
  induction a generalizing b with
  | nil => cases b <;> rfl
  | cons x xs ih =>
    cases b with
    | nil => rfl
    | cons y ys =>
      simp only [listCmp]
      rcases Nat.lt_trichotomy x.toNat y.toNat with h | h | h
      · simp [h, Nat.lt_asymm h, Nat.ne_of_lt h, Ordering.swap]
      · simp [h, Nat.lt_irrefl, ih, Ordering.swap]
      · simp [h, Nat.lt_asymm h, Nat.ne_of_gt h, Ordering.swap]

theorem strLe_total (a b : String) : strLe a b = true ∨ strLe b a = true := by
  unfold strLe strCmp
  rw [listCmp_swap a.data b.data]
  cases listCmp a.data b.data <;> decide

theorem listCmp_le_trans (a : List Char) : ∀ b c : List Char,
    listCmp a b ≠ .gt → listCmp b c ≠ .gt → listCmp a c ≠ .gt := by
  induction a with
  | nil =>
    intro b c _ _
    cases c <;> intro hcon <;> simp [listCmp] at hcon
  | cons x xs ih =>
    intro b c h1 h2
    cases b with
    | nil => simp [listCmp] at h1
    | cons y ys =>
      cases c with
      | nil => simp [listCmp] at h2
      | cons z zs =>
        simp only [listCmp] at h1 h2 ⊢
        split_ifs at h1 h2 ⊢ <;>
          first
            | exact ih ys zs h1 h2
            | decide
            | omega
            | simp_all

theorem strLe_iff (a b : String) : strLe a b = true ↔ listCmp a.data b.data ≠ .gt := by
  unfold strLe strCmp
  cases listCmp a.data b.data <;> decide

theorem strLe_trans {a b c : String} (h1 : strLe a b = true) (h2 : strLe b c = true) :
    strLe a c = true :=
  (strLe_iff a c).mpr
    (listCmp_le_trans a.data b.data c.data ((strLe_iff a b).mp h1) ((strLe_iff b c).mp h2))

theorem nameLe_sorted_head_max (l : List String) (latest : String) (rest : List String)
    (h : (l.insertionSort nameLe).reverse = latest :: rest) :
    latest ∈ l ∧ ∀ x ∈ l, strLe x latest = true := by
  haveI : IsTotal String nameLe := ⟨strLe_total⟩
  haveI : IsTrans String nameLe := ⟨fun _ _ _ => strLe_trans⟩
  have hs : List.Pairwise nameLe (l.insertionSort nameLe) :=
    List.sorted_insertionSort nameLe l
  have hrev : List.Pairwise (fun a b => nameLe b a) (l.insertionSort nameLe).reverse :=
    List.pairwise_reverse.mpr hs
  rw [h] at hrev
  have hmem : ∀ x : String, x ∈ l ↔ x ∈ latest :: rest := by
    intro x
    rw [← (List.perm_insertionSort nameLe l).mem_iff, ← List.mem_reverse, h]
  constructor
  · exact (hmem latest).mpr (List.mem_cons_self _ _)
  · intro x hx
    rcases List.mem_cons.mp ((hmem x).mp hx) with hxl | hxr
    · subst hxl; exact strLe_refl _
    · exact (List.pairwise_cons.mp hrev).1 x hxr

theorem lookup_of_mem_keys {β : Type} (l : List (String × β)) (a : String)
    (h : a ∈ l.map Prod.fst) : ∃ b, l.lookup a = some b := by
  induction l with
  | nil => simp at h
  | cons p ps ih =>
    simp only [List.map_cons, List.mem_cons] at h
    by_cases hpa : a == p.1
    · exact ⟨p.2, by simp [List.lookup, hpa]⟩
    · rcases h with h | h
      · simp [h] at hpa
      · rcases ih h with ⟨b, hb⟩
        exact ⟨b, by simp [List.lookup, hpa, hb]⟩

/-! ### C9: the retention cutoff -/

/-- C9 counterexample: at now = 2026-02-01T00:00:00Z, the code's cutoff
(`now − 2·365·24·60·60·1000 ms`) is 2024-02-02, not the instant exactly
2 calendar years earlier (2024-02-01): the span contains the leap day
2024-02-29, so "minus exactly 2 years" and "minus 730 days" differ. -/
theorem cleanupCutoff_counterexample :
    toISOString 1769904000000 = "2026-02-01T00:00:00.000Z" ∧
    cleanupCutoff 1769904000000 = "2024-02-02T00:00:00.000Z" ∧
    calendarTwoYearsEarlierISO 1769904000000 = "2024-02-01T00:00:00.000Z" ∧
    cleanupCutoff 1769904000000 ≠ calendarTwoYearsEarlierISO 1769904000000 := by
  decide

/-- C9 (amended): in every run of `runDataComplianceCleanup` the cutoff
used by the delete steps equals the current wall-clock time minus 730
days (2 × 365 days; leap days are not accounted for), rendered as an
ISO-8601 UTC string, and the visits kept are exactly those whose stored
`entry_time` is not lexicographically less than that string. -/
theorem cleanupCutoff_is_730_days (db : DB) (nowMs auditMs : Nat) :
    (runDataComplianceCleanup db nowMs auditMs false false false false).db.visits
      = db.visits.filter
          (fun v => !(strLt v.entry_time (toISOString (nowMs - 730 * 86400000)))) ∧
    cleanupCutoff nowMs = toISOString (nowMs - 730 * 86400000) ∧
    cleanupCutoff 1769904000000 = "2024-02-02T00:00:00.000Z" := by
  have h : (2 * 365 * 24 * 60 * 60 * 1000 : Nat) = 730 * 86400000 := by norm_num
  refine ⟨?_, ?_, by decide⟩
  · simp [runDataComplianceCleanup, cleanupCutoff, deleteDependentsStep,
      deleteVisitsStep, deleteVisitorsStep, h]
  · simp [cleanupCutoff, h]

/-! ### C6: checkDatabaseIntegrity -/

/-- C6 counterexample: with the file present and no open or execution
error, an empty integrity-check result set makes the function return
`true`, although the result set is not exactly the single row "ok"
(`rows.length > 0 && rows[0] !== "ok"` is false for empty rows). -/
theorem checkDatabaseIntegrity_counterexample :
    checkDatabaseIntegrity ⟨true, false, false, []⟩ = true ∧
    ([] : List String) ≠ ["ok"] := by
  decide

/-- C6 (amended): `checkDatabaseIntegrity` never throws (it is a total
function of its environment); it returns `false` when no file exists, and
otherwise returns `true` iff the read-only open succeeded, the pragma ran
without engine-level error, and the result set is empty or its first row
reads "ok" (rows after the first are ignored). -/
theorem checkDatabaseIntegrity_characterization (env : IntegrityCheckEnv) :
    (env.fileExists = false → checkDatabaseIntegrity env = false) ∧
    (checkDatabaseIntegrity env = true ↔
      env.fileExists = true ∧ env.openError = false ∧ env.pragmaError = false ∧
      (env.pragmaRows = [] ∨ env.pragmaRows.head? = some "ok")) := by
  obtain ⟨fe, oe, pe, rows⟩ := env
  cases fe <;> cases oe <;> cases pe <;> cases rows <;>
    simp [checkDatabaseIntegrity]

/-- C6 witness: the characterization applied at concrete environments. -/
theorem checkDatabaseIntegrity_characterization_witness :
    checkDatabaseIntegrity ⟨false, false, false, ["ok"]⟩ = false ∧
    (checkDatabaseIntegrity ⟨true, false, false, ["ok"]⟩ = true ↔
      (true = true ∧ false = false ∧ false = false ∧
        ((["ok"] : List String) = [] ∨ (["ok"] : List String).head? = some "ok"))) :=
  ⟨(checkDatabaseIntegrity_characterization _).1 rfl,
   (checkDatabaseIntegrity_characterization _).2⟩

/-! ### C10: failed restore performs no write -/

/-- C10: when `restoreFromBackup` fails because the backup directory does
not exist or because no file matches the primary file's stem with the
`.db` extension, the filesystem (primary file and all backup files) is
returned unchanged and the result is `false`. -/
theorem restoreFromBackup_failure_frame (fs : RestoreFS) (copyFails : Bool)
    (dbFileName : String)
    (h : fs.backupDirExists = false ∨
      (fs.backupFiles.map Prod.fst).filter (backupMatches (fileStem dbFileName)) = []) :
    restoreFromBackup fs copyFails dbFileName = (fs, false) := by
  rcases h with h | h
  · simp [restoreFromBackup, h]
  · cases hd : fs.backupDirExists <;>
      simp [restoreFromBackup, hd, h, List.insertionSort]

/-- C10 witness: a concrete failed restore that leaves the filesystem
untouched. -/
theorem restoreFromBackup_failure_frame_witness :
    restoreFromBackup ⟨true, [("notes.txt", "x")], some "p"⟩ false "database.db"
      = (⟨true, [("notes.txt", "x")], some "p"⟩, false) :=
  restoreFromBackup_failure_frame _ false "database.db" (Or.inr (by decide))

/-- C1: for every invocation of the cleanup job and every outcome of its
three delete steps (all succeed, or any step rejects), the job never
throws to its caller — also when the audit insert itself fails — and,
whenever the audit insert itself does not fail, exactly one audit record
is appended to `audit_logs`: status "OK" / event "Compliance Cleanup
Succeeded" when all three deletes completed, status "ERROR" / event
"Compliance Cleanup Failed" when any delete threw. -/
theorem cleanup_never_throws_unique_audit (db : DB) (nowMs auditMs : Nat)
    (fail1 fail2 fail3 auditFail : Bool) :
    (runDataComplianceCleanup db nowMs auditMs fail1 fail2 fail3 auditFail).threw = false ∧
    (auditFail = false →
      ∃ rec : AuditRecord,
        (runDataComplianceCleanup db nowMs auditMs fail1 fail2 fail3 auditFail).db.audit_logs
          = db.audit_logs ++ [rec] ∧
        rec.status = (if fail1 || fail2 || fail3 then "ERROR" else "OK") ∧
        rec.event_name = (if fail1 || fail2 || fail3 then "Compliance Cleanup Failed"
                          else "Compliance Cleanup Succeeded")) := by
  refine ⟨rfl, fun ha => ?_⟩
  subst ha
  cases fail1 <;> cases fail2 <;> cases fail3 <;>
    exact ⟨_, rfl, rfl, rfl⟩

/-- C1 witness: the theorem applied at a concrete database and fault
pattern (second delete rejects), hypotheses discharged. -/
theorem cleanup_never_throws_unique_audit_witness :
    (runDataComplianceCleanup ⟨[], [], [], []⟩ 0 0 false true false false).threw = false ∧
    (∃ rec : AuditRecord,
      (runDataComplianceCleanup ⟨[], [], [], []⟩ 0 0 false true false false).db.audit_logs
        = (⟨[], [], [], []⟩ : DB).audit_logs ++ [rec] ∧
      rec.status = (if false || true || false then "ERROR" else "OK") ∧
      rec.event_name = (if false || true || false then "Compliance Cleanup Failed"
                        else "Compliance Cleanup Succeeded")) :=
  ⟨(cleanup_never_throws_unique_audit ⟨[], [], [], []⟩ 0 0 false true false false).1,
   (cleanup_never_throws_unique_audit ⟨[], [], [], []⟩ 0 0 false true false false).2 rfl⟩

/-- C3: if the second delete step (visits) throws after the first step
(dependents) succeeded, the job aborts the remaining step and writes an
audit record with status "ERROR", event "Compliance Cleanup Failed",
`dependents_deleted` equal to the completed first step's row count, and
`visits_deleted` and `profiles_deleted` at 0; the dependents table keeps
the first step's deletions (no rollback spans the steps) while visits
and visitors are untouched. -/
theorem cleanup_step2_failure_partial_audit (db : DB) (nowMs auditMs : Nat) (fail3 : Bool) :
    (runDataComplianceCleanup db nowMs auditMs false true fail3 false).db.audit_logs
      = db.audit_logs ++
        [{ event_name := "Compliance Cleanup Failed",
           timestamp := toISOString auditMs,
           status := "ERROR",
           profiles_deleted := 0,
           visits_deleted := 0,
           dependents_deleted :=
             (deleteDependentsStep db.dependents db.visits (cleanupCutoff nowMs)).2 }] ∧
    (runDataComplianceCleanup db nowMs auditMs false true fail3 false).db.dependents
      = (deleteDependentsStep db.dependents db.visits (cleanupCutoff nowMs)).1 ∧
    (runDataComplianceCleanup db nowMs auditMs false true fail3 false).db.visits
      = db.visits ∧
    (runDataComplianceCleanup db nowMs auditMs false true fail3 false).db.visitors
      = db.visitors :=
  ⟨rfl, rfl, rfl, rfl⟩

/-- C4: every banned visitor row (is_banned ≠ 0) present before a
cleanup run — with any fault pattern — is still present after it: only
the visitor-profile delete step filters visitors, and its predicate
requires `is_banned = 0`. -/
theorem cleanup_preserves_banned_visitors (db : DB) (nowMs auditMs : Nat)
    (fail1 fail2 fail3 auditFail : Bool) (p : Visitor)
    (hp : p ∈ db.visitors) (hb : p.is_banned ≠ 0) :
    p ∈ (runDataComplianceCleanup db nowMs auditMs fail1 fail2 fail3 auditFail).db.visitors := by
  cases fail1 <;> cases fail2 <;> cases fail3 <;> cases auditFail <;>
    simp [runDataComplianceCleanup, deleteVisitorsStep, List.mem_filter, hp, hb]

/-- C4 witness: a concrete banned visitor with zero visits survives a
fault-free cleanup run. -/
theorem cleanup_preserves_banned_visitors_witness :
    (⟨7, "a", 1⟩ : Visitor) ∈
      (runDataComplianceCleanup ⟨[⟨7, "a", 1⟩], [], [], []⟩ 0 0
        false false false false).db.visitors :=
  cleanup_preserves_banned_visitors ⟨[⟨7, "a", 1⟩], [], [], []⟩ 0 0
    false false false false ⟨7, "a", 1⟩ (by decide) (by decide)

theorem nat_contains_iff_mem (l : List Nat) (a : Nat) : l.contains a = true ↔ a ∈ l := by
  simp

/-- C2: after a run of the cleanup job in which all three delete steps
complete, no remaining visit has `entry_time` lexicographically below
the cutoff, no remaining dependent references a visits row that the run
deleted (every initial visit referenced by a surviving dependent also
survives), and no unbanned visitor remains with zero visits. -/
theorem cleanup_postconditions (db : DB) (nowMs auditMs : Nat) :
    (∀ v ∈ (runDataComplianceCleanup db nowMs auditMs false false false false).db.visits,
        strLt v.entry_time (cleanupCutoff nowMs) = false) ∧
    (∀ d ∈ (runDataComplianceCleanup db nowMs auditMs false false false false).db.dependents,
        ∀ v ∈ db.visits, v.id = d.visit_id →
          v ∈ (runDataComplianceCleanup db nowMs auditMs false false false false).db.visits) ∧
    (∀ p ∈ (runDataComplianceCleanup db nowMs auditMs false false false false).db.visitors,
        p.is_banned = 0 →
          ∃ v ∈ (runDataComplianceCleanup db nowMs auditMs false false false false).db.visits,
            v.visitor_id = p.id) := by
  have hvis : (runDataComplianceCleanup db nowMs auditMs false false false false).db.visits
      = db.visits.filter (fun v => !(strLt v.entry_time (cleanupCutoff nowMs))) := rfl
  have hdep : (runDataComplianceCleanup db nowMs auditMs false false false false).db.dependents
      = db.dependents.filter (fun d =>
          !(((db.visits.filter (fun v => strLt v.entry_time (cleanupCutoff nowMs))).map
              (fun v => v.id)).contains d.visit_id)) := rfl
  have hvtr : (runDataComplianceCleanup db nowMs auditMs false false false false).db.visitors
      = db.visitors.filter (fun p =>
          !(!(((db.visits.filter (fun v => !(strLt v.entry_time (cleanupCutoff nowMs)))).map
                (fun v => v.visitor_id)).contains p.id) && p.is_banned == 0)) := rfl
  refine ⟨?_, ?_, ?_⟩
  · intro v hv
    rw [hvis] at hv
    simpa using (List.mem_filter.mp hv).2
  · intro d hd v hvin hvid
    rw [hdep] at hd
    obtain ⟨hdin, hdc⟩ := List.mem_filter.mp hd
    rw [hvis]
    refine List.mem_filter.mpr ⟨hvin, ?_⟩
    simp only [Bool.not_eq_true']
    by_contra hlt
    have hlt' : strLt v.entry_time (cleanupCutoff nowMs) = true := by
      cases hcase : strLt v.entry_time (cleanupCutoff nowMs)
      · exact absurd hcase hlt
      · rfl
    have hvmem : v.id ∈ (db.visits.filter
        (fun v => strLt v.entry_time (cleanupCutoff nowMs))).map (fun v => v.id) :=
      List.mem_map.mpr ⟨v, List.mem_filter.mpr ⟨hvin, hlt'⟩, rfl⟩
    rw [hvid] at hvmem
    simp only [Bool.not_eq_true'] at hdc
    have hcontains := (nat_contains_iff_mem _ _).mpr hvmem
    rw [hdc] at hcontains
    exact Bool.false_ne_true hcontains
  · intro p hp hb
    rw [hvtr] at hp
    obtain ⟨hpin, hpc⟩ := List.mem_filter.mp hp
    simp only [hb, beq_self_eq_true, Bool.and_true, Bool.not_not] at hpc
    have : p.id ∈ (db.visits.filter
        (fun v => !(strLt v.entry_time (cleanupCutoff nowMs)))).map (fun v => v.visitor_id) := by
      rw [← nat_contains_iff_mem]
      exact hpc
    obtain ⟨v, hvin, hvid⟩ := List.mem_map.mp this
    exact ⟨v, by rw [hvis]; exact hvin, hvid⟩

/-- C2 witness: the theorem applied to a concrete one-visitor database
with an old visit and its dependent. -/
theorem cleanup_postconditions_witness :
    (∀ v ∈ (runDataComplianceCleanup ⟨[⟨1, "a", 0⟩], [⟨2, 1, "2022-01-01T00:00:00.000Z"⟩],
        [⟨3, 2⟩], []⟩ 1769904000000 1769904000000 false false false false).db.visits,
      strLt v.entry_time (cleanupCutoff 1769904000000) = false) ∧
    (∀ d ∈ (runDataComplianceCleanup ⟨[⟨1, "a", 0⟩], [⟨2, 1, "2022-01-01T00:00:00.000Z"⟩],
        [⟨3, 2⟩], []⟩ 1769904000000 1769904000000 false false false false).db.dependents,
      ∀ v ∈ ([⟨2, 1, "2022-01-01T00:00:00.000Z"⟩] : List Visit), v.id = d.visit_id →
        v ∈ (runDataComplianceCleanup ⟨[⟨1, "a", 0⟩], [⟨2, 1, "2022-01-01T00:00:00.000Z"⟩],
          [⟨3, 2⟩], []⟩ 1769904000000 1769904000000 false false false false).db.visits) ∧
    (∀ p ∈ (runDataComplianceCleanup ⟨[⟨1, "a", 0⟩], [⟨2, 1, "2022-01-01T00:00:00.000Z"⟩],
        [⟨3, 2⟩], []⟩ 1769904000000 1769904000000 false false false false).db.visitors,
      p.is_banned = 0 →
        ∃ v ∈ (runDataComplianceCleanup ⟨[⟨1, "a", 0⟩], [⟨2, 1, "2022-01-01T00:00:00.000Z"⟩],
          [⟨3, 2⟩], []⟩ 1769904000000 1769904000000 false false false false).db.visits,
            v.visitor_id = p.id) :=
  cleanup_postconditions ⟨[⟨1, "a", 0⟩], [⟨2, 1, "2022-01-01T00:00:00.000Z"⟩], [⟨3, 2⟩], []⟩
    1769904000000 1769904000000

/-- C5: in every execution of the startup recovery loop at most 2
restore attempts are made; whenever restore fails because no backups are
available (which, the backup listing being unchanged by restores, can
only surface on the first attempt), the loop stops after that single
call with the non-fatal create-fresh-file outcome; and the FATAL halt is
signaled exactly when both restore attempts were consumed and the
database is still not clean. -/
theorem initializeServer_recovery (integ : Nat → Bool) (backupsAvailable : Bool)
    (copyOk : Nat → Bool) :
    (initializeServer integ backupsAvailable copyOk).restoreCalls ≤ 2 ∧
    (backupsAvailable = false → integ 0 = false →
      (initializeServer integ backupsAvailable copyOk).restoreCalls = 1 ∧
      (initializeServer integ backupsAvailable copyOk).fatalHalt = false ∧
      (initializeServer integ backupsAvailable copyOk).clean = false) ∧
    ((initializeServer integ backupsAvailable copyOk).fatalHalt = true ↔
      (initializeServer integ backupsAvailable copyOk).restoreCalls = 2 ∧
      (initializeServer integ backupsAvailable copyOk).clean = false) := by
  cases h0 : integ 0 <;> cases hb : backupsAvailable <;>
    cases hc1 : copyOk 1 <;> cases hi1 : integ 1 <;>
    cases hc2 : copyOk 2 <;> cases hi2 : integ 2 <;>
    simp_all [initializeServer, recoveryLoop]

/-- C5 witness: the no-backups branch evaluated concretely — one restore
call, no fatal halt. -/
theorem initializeServer_recovery_witness :
    (initializeServer (fun _ => false) false (fun _ => true)).restoreCalls = 1 ∧
    (initializeServer (fun _ => false) false (fun _ => true)).fatalHalt = false ∧
    (initializeServer (fun _ => false) false (fun _ => true)).clean = false :=
  (initializeServer_recovery (fun _ => false) false (fun _ => true)).2.1 rfl rfl

theorem insertionSort_reverse_eq_nil_iff (l : List String) :
    ((l.insertionSort nameLe).reverse = []) ↔ l = [] := by
  rw [← List.length_eq_zero, List.length_reverse,
    (List.perm_insertionSort nameLe l).length_eq, List.length_eq_zero]

/-- C7: `restoreFromBackup` keeps the backup-directory entries whose
names start with the primary file's stem and end with ".db", sorts them
lexicographically descending and restores the first — a name maximal
among the matches — copying its content over the primary file and
returning true; it returns false exactly when the backup directory does
not exist, no name matches, or the copy fails.  With backups
database-2023-01-01.db and database-2023-12-31.db present, the
2023-12-31 file is the one restored. -/
theorem restoreFromBackup_selects_latest :
    (∀ (fs : RestoreFS) (copyFails : Bool) (dbFileName : String),
      ((restoreFromBackup fs copyFails dbFileName).2 = false ↔
        fs.backupDirExists = false ∨
        (fs.backupFiles.map Prod.fst).filter (backupMatches (fileStem dbFileName)) = [] ∨
        copyFails = true) ∧
      (∀ latest rest,
        (((fs.backupFiles.map Prod.fst).filter
            (backupMatches (fileStem dbFileName))).insertionSort nameLe).reverse
          = latest :: rest →
        fs.backupDirExists = true → copyFails = false →
        latest ∈ (fs.backupFiles.map Prod.fst).filter (backupMatches (fileStem dbFileName)) ∧
        (∀ n ∈ (fs.backupFiles.map Prod.fst).filter (backupMatches (fileStem dbFileName)),
          strLe n latest = true) ∧
        ∃ content, fs.backupFiles.lookup latest = some content ∧
          restoreFromBackup fs copyFails dbFileName
            = ({ fs with primaryContent := some content }, true))) ∧
    restoreFromBackup ⟨true, [("database-2023-01-01.db", "janContent"),
        ("database-2023-12-31.db", "decContent")], some "p"⟩ false "database.db"
      = (⟨true, [("database-2023-01-01.db", "janContent"),
          ("database-2023-12-31.db", "decContent")], some "decContent"⟩, true) := by
  constructor
  · intro fs copyFails dbFileName
    constructor
    · cases hd : fs.backupDirExists
      · simp [restoreFromBackup, hd]
      · rcases hs : (((fs.backupFiles.map Prod.fst).filter
            (backupMatches (fileStem dbFileName))).insertionSort nameLe).reverse with
          _ | ⟨latest, rest⟩
        · have hmnil := (insertionSort_reverse_eq_nil_iff _).mp hs
          simp [restoreFromBackup, hd, hs, hmnil]
        · have hmne : (fs.backupFiles.map Prod.fst).filter
              (backupMatches (fileStem dbFileName)) ≠ [] := by
            intro hnil
            rw [hnil] at hs
            simp [List.insertionSort] at hs
          have hmax := nameLe_sorted_head_max _ _ _ hs
          have hlmem : latest ∈ fs.backupFiles.map Prod.fst :=
            (List.mem_filter.mp hmax.1).1
          obtain ⟨c, hc⟩ := lookup_of_mem_keys _ _ hlmem
          cases copyFails
          · simp [restoreFromBackup, hd, hs, hc, hmne]
          · simp [restoreFromBackup, hd, hs]
    · intro latest rest hs hd hcf
      have hmax := nameLe_sorted_head_max _ _ _ hs
      have hlmem : latest ∈ fs.backupFiles.map Prod.fst :=
        (List.mem_filter.mp hmax.1).1
      obtain ⟨c, hc⟩ := lookup_of_mem_keys _ _ hlmem
      refine ⟨hmax.1, hmax.2, c, hc, ?_⟩
      simp [restoreFromBackup, hd, hs, hcf, hc]
  · decide

/-- C7 witness: the selection property of the theorem applied to the
two-dated-backups directory. -/
theorem restoreFromBackup_selects_latest_witness :
    "database-2023-12-31.db" ∈
      (([("database-2023-01-01.db", "janContent"), ("database-2023-12-31.db", "decContent")].map
        (Prod.fst (α := String) (β := String))).filter (backupMatches (fileStem "database.db"))) ∧
    (∀ n ∈ (([("database-2023-01-01.db", "janContent"),
        ("database-2023-12-31.db", "decContent")].map
          (Prod.fst (α := String) (β := String))).filter (backupMatches (fileStem "database.db"))),
      strLe n "database-2023-12-31.db" = true) ∧
    ∃ content,
      [("database-2023-01-01.db", "janContent"),
        ("database-2023-12-31.db", "decContent")].lookup "database-2023-12-31.db" = some content ∧
      restoreFromBackup ⟨true, [("database-2023-01-01.db", "janContent"),
          ("database-2023-12-31.db", "decContent")], some "p"⟩ false "database.db"
        = ({ backupDirExists := true,
             backupFiles := [("database-2023-01-01.db", "janContent"),
               ("database-2023-12-31.db", "decContent")],
             primaryContent := some content }, true) :=
  (restoreFromBackup_selects_latest.1
      ⟨true, [("database-2023-01-01.db", "janContent"),
        ("database-2023-12-31.db", "decContent")], some "p"⟩ false "database.db").2
    "database-2023-12-31.db" ["database-2023-01-01.db"] (by decide) rfl rfl

theorem createBackup_skip_when_exists (fs : BackupFS) (nowMs : Nat)
    (copyFails sweepFails : Bool) (dbFileName : String)
    (h : fs.backupFiles.any (fun p => p.1 == dailyBackupName nowMs dbFileName) = true) :
    (createBackup fs nowMs copyFails sweepFails dbFileName).didCopy = false ∧
    (createBackup fs nowMs copyFails sweepFails dbFileName).ranSweep = true ∧
    (createBackup fs nowMs copyFails sweepFails dbFileName).returned = true := by
  simp [createBackup, h]

/-- C8: `createBackup` is idempotent within a calendar day: when today's
dated backup already exists a call performs no copy, still runs the
prune sweep and returns true, so two same-day calls starting from a day
with no backup perform exactly one copy (first call copies, second call
does not); the function returns false exactly when today's backup was
absent and the copy failed, and a failing prune sweep never changes the
return value. -/
theorem createBackup_daily_idempotent :
    (∀ (fs : BackupFS) (nowMs : Nat) (copyFails sweepFails : Bool) (dbFileName : String),
      (fs.backupFiles.any (fun p => p.1 == dailyBackupName nowMs dbFileName) = true →
        (createBackup fs nowMs copyFails sweepFails dbFileName).didCopy = false ∧
        (createBackup fs nowMs copyFails sweepFails dbFileName).ranSweep = true ∧
        (createBackup fs nowMs copyFails sweepFails dbFileName).returned = true) ∧
      ((createBackup fs nowMs copyFails sweepFails dbFileName).returned = false ↔
        fs.backupFiles.any (fun p => p.1 == dailyBackupName nowMs dbFileName) = false ∧
        copyFails = true) ∧
      ((createBackup fs nowMs copyFails true dbFileName).returned
        = (createBackup fs nowMs copyFails false dbFileName).returned)) ∧
    (∀ (fs : BackupFS) (n1 n2 : Nat) (sf1 sf2 : Bool) (dbFileName : String),
      jsSlice (toISOString n1) 10 = jsSlice (toISOString n2) 10 →
      fs.backupFiles.any (fun p => p.1 == dailyBackupName n1 dbFileName) = false →
      (createBackup fs n1 false sf1 dbFileName).didCopy = true ∧
      (createBackup (createBackup fs n1 false sf1 dbFileName).fs n2 false sf2
          dbFileName).didCopy = false ∧
      (createBackup (createBackup fs n1 false sf1 dbFileName).fs n2 false sf2
          dbFileName).returned = true ∧
      (createBackup (createBackup fs n1 false sf1 dbFileName).fs n2 false sf2
          dbFileName).ranSweep = true) := by
  constructor
  · intro fs nowMs copyFails sweepFails dbFileName
    refine ⟨createBackup_skip_when_exists fs nowMs copyFails sweepFails dbFileName, ?_, ?_⟩
    · cases h : fs.backupFiles.any (fun p => p.1 == dailyBackupName nowMs dbFileName) <;>
        cases copyFails <;> simp [createBackup, h]
    · cases h : fs.backupFiles.any (fun p => p.1 == dailyBackupName nowMs dbFileName) <;>
        cases copyFails <;> simp [createBackup, h]
  · intro fs n1 n2 sf1 sf2 dbFileName hstamp habsent
    have hname : dailyBackupName n2 dbFileName = dailyBackupName n1 dbFileName := by
      unfold dailyBackupName
      rw [hstamp]
    have hmem : (dailyBackupName n1 dbFileName, n1) ∈
        (createBackup fs n1 false sf1 dbFileName).fs.backupFiles := by
      cases sf1 <;>
        simp [createBackup, habsent, cleanOldBackups, List.mem_filter, Nat.not_lt, Nat.sub_le]
    have hany : (createBackup fs n1 false sf1 dbFileName).fs.backupFiles.any
        (fun p => p.1 == dailyBackupName n2 dbFileName) = true := by
      rw [hname]
      exact List.any_eq_true.mpr ⟨_, hmem, by simp⟩
    have hskip := createBackup_skip_when_exists
      (createBackup fs n1 false sf1 dbFileName).fs n2 false sf2 dbFileName hany
    exact ⟨by simp [createBackup, habsent], hskip.1, hskip.2.2, hskip.2.1⟩

/-- C8 witness: two concrete same-day calls (2026-02-01 midnight and
noon) — one copy, second call skips, returns true, prunes. -/
theorem createBackup_daily_idempotent_witness :
    (createBackup ⟨false, []⟩ 1769904000000 false false "database.db").didCopy = true ∧
    (createBackup (createBackup ⟨false, []⟩ 1769904000000 false false "database.db").fs
        1769947200000 false false "database.db").didCopy = false ∧
    (createBackup (createBackup ⟨false, []⟩ 1769904000000 false false "database.db").fs
        1769947200000 false false "database.db").returned = true ∧
    (createBackup (createBackup ⟨false, []⟩ 1769904000000 false false "database.db").fs
        1769947200000 false false "database.db").ranSweep = true :=
  createBackup_daily_idempotent.2 ⟨false, []⟩ 1769904000000 1769947200000 false false
    "database.db" (by decide) (by decide)
